import Mathlib

/-!
Verification of the Project Sentinel retail anomaly-detection engine.

This file is a shallow embedding of the two detection code bases of the
repository:

* the batch pipeline in submission-structure/Team##_sentinel/src
  (data_loader.py, event_detector.py, main.py), embedded in the root
  namespace and in namespace Loader;
* the streaming detectors in Team01_sentinel/src/main.py, embedded in
  namespace T01.

Python conventions are modelled as follows: ISO timestamp strings become
Nat seconds (datetime subtraction becomes Int subtraction); optional
payload fields of the per-record 'data' object are inlined as Option
fields; Python float arithmetic (weights, accuracy, dwell times,
percentage thresholds) is modelled exactly over ℚ; a record field that
Python reads with dict.get is an Option, one read by subscript is a plain
field.  Python's list.sort(key=...) is a stable sort by key; stable
sorting is extensionally unique, so it is embedded as the stable
insertion sort sortTs below.
-/

/-- Event data payload of an emitted incident, one constructor per
detection rule, mirroring the per-rule dict shapes built in
event_detector.py and Team01_sentinel/src/main.py. -/
inductive EData where
  | scanAvoid (station_id : String) (customer_id : Option String) (product_sku : Option String)
  | barcodeSwitch (station_id : String) (customer_id actual_sku scanned_sku : Option String)
  | weightDisc (station_id : String) (customer_id : Option String) (product_sku : String)
      (expected_weight actual_weight : Int)
  | longQueue (station_id : String) (num_of_customers : Int)
  | longWait (station_id : String) (wait_time_seconds : Int)
  | systemCrash (station_id : String) (duration_seconds : Int)
  | invDisc (sku : String) (expected_inventory actual_inventory : Int)
  | successOp (station_id : String) (customer_id product_sku : Option String)
deriving DecidableEq

/-- Emitted incident: timestamp of the triggering event, the event_id
string, and the tagged event_data payload. -/
structure Incident where
  ts : Nat
  event_id : String
  event_data : EData
deriving DecidableEq

/-- Normalized input event.  station_id and timestamp are read by
subscript in the batch detectors (hence plain fields); all payload
fields are read with dict.get (hence Options). -/
structure Ev where
  station_id : String
  ts : Nat
  sku : Option String
  customer_id : Option String
  weight_g : Option ℚ
  location : Option String
  customer_count : Option Int
  average_dwell_time : Option ℚ
  predicted_product : Option String
  accuracy : Option ℚ
deriving DecidableEq

/-- Event with only station and timestamp set, all payload fields absent. -/
def mkEv (st : String) (t : Nat) : Ev :=
  ⟨st, t, none, none, none, none, none, none, none, none⟩

/-- Inventory snapshot record: timestamp plus the per-SKU quantity map
of its 'data' object, as an insertion-ordered association list (Python
dicts preserve insertion order). -/
structure Snap where
  ts : Nat
  data : List (String × Int)
deriving DecidableEq

/-- Product catalog row.  weight is the parsed 'Weight (g)' column;
none models a missing, empty or unparseable entry (the CSV string
truthiness check and the float() try/except of event_detector.py). -/
structure Product where
  sku : Option String
  weight : Option ℚ
deriving DecidableEq

/-- Python format string f-string E followed by the index zero-padded
to at least three digits, as used for event ids. -/
def eid (n : Nat) : String :=
  "E" ++ (String.mk (List.replicate (3 - (Nat.repr n).length) '0') ++ Nat.repr n)

/-- Sequential reassignment of event ids starting at a given counter
value.  Each detector numbers its emissions E000, E001, ... with a local
counter, and main.py renumbers the final sorted list the same way; both
are this function at counter 0. -/
def renumber : Nat → List Incident → List Incident
  | _, [] => []
  | i, inc :: rest => ⟨inc.ts, eid i, inc.event_data⟩ :: renumber (i + 1) rest

/-- First-occurrence deduplication, modelling Python set insertion order
deterministically (set iteration order is unspecified; no claim depends
on it). -/
def dedupFirst {β : Type} [DecidableEq β] : List β → List β
  | [] => []
  | x :: xs => x :: (dedupFirst xs).filter (fun y => y != x)

/-- Stable insertion of an element into a list by Nat key: the new
element goes before every element with an equal or larger key that came
after it. -/
def insTs {α : Type} (key : α → Nat) (x : α) : List α → List α
  | [] => [x]
  | y :: ys => if key y < key x then y :: insTs key x ys else x :: y :: ys

/-- Stable sort by Nat key.  Python's list.sort(key=...) is stable and a
stable sort is extensionally unique, so this insertion sort is the
embedding of every sort call of the source. -/
def sortTs {α : Type} (key : α → Nat) : List α → List α
  | [] => []
  | x :: xs => insTs key x (sortTs key xs)

/-- Association-list lookup on string keys (Python dict read). -/
def lookupA {β : Type} : List (String × β) → String → Option β
  | [], _ => none
  | (k, v) :: rest, s => if k == s then some v else lookupA rest s

/-- Python dict.get(key, default). -/
def getDA {β : Type} (l : List (String × β)) (s : String) (d : β) : β :=
  (lookupA l s).getD d

/-- Python dict item assignment for a key that is already present
(each entry with the key is overwritten; dict keys are unique). -/
def setA {β : Type} : List (String × β) → String → β → List (String × β)
  | [], _, _ => []
  | p :: rest, s, v => (if p.1 = s then (s, v) else p) :: setA rest s v

/-- Python dict decrement of a present key by one. -/
def decA : List (String × Int) → String → List (String × Int)
  | [], _ => []
  | p :: rest, s => (if p.1 = s then (p.1, p.2 - 1) else p) :: decA rest s

/-- Absolute timestamp difference in seconds being at most the window,
inclusive: abs((t1 - t2).total_seconds()) <= window. -/
def inWindow (a b w : Nat) : Bool :=
  decide (((a : Int) - (b : Int)).natAbs ≤ w)

/-- Python int() truncation toward zero of an exact rational. -/
def truncQ (q : ℚ) : Int :=
  if 0 ≤ q then q.floor else -((-q).floor)

/-- Scanner avoidance detector of event_detector.py: for each POS
transaction, collect the SKUs of RFID reads with location IN_SCAN_AREA
at the same station within the window, and emit one incident per such
SKU different from the scanned one. -/
def detect_scanner_avoidance (pos_transactions rfid_readings : List Ev)
    (time_window_seconds : Nat) : List Incident :=
  renumber 0 ((pos_transactions.map (fun pos =>
    let rfids := ((rfid_readings.filter (fun r => r.location == some "IN_SCAN_AREA")).filter
      (fun r => r.station_id == pos.station_id)).filter
        (fun r => inWindow r.ts pos.ts time_window_seconds)
    let rfid_skus := dedupFirst (rfids.map (fun r => r.sku))
    (rfid_skus.filter (fun u => u != pos.sku)).map
      (fun u => (⟨pos.ts, "", .scanAvoid pos.station_id pos.customer_id u⟩ : Incident)))).flatten)

/-- Barcode switching detector of event_detector.py: for each POS
transaction, the first recognition event with accuracy above 0.5 at the
same station within the window whose truthy predicted SKU differs from
the scanned SKU yields one incident (first-match-wins, then break). -/
def detect_barcode_switching (pos_transactions product_recognition : List Ev)
    (time_window_seconds : Nat) : List Incident :=
  renumber 0 (pos_transactions.filterMap (fun pos =>
    let recs := (product_recognition.filter
      (fun r => decide ((r.accuracy.getD 0) > (0.5 : ℚ)))).filter
        (fun r => r.station_id == pos.station_id)
    match recs.find? (fun r => inWindow r.ts pos.ts time_window_seconds &&
        (match r.predicted_product with
         | some q => q != "" && (some q != pos.sku)
         | none => false)) with
    | some r => some (⟨pos.ts, "",
        .barcodeSwitch pos.station_id pos.customer_id r.predicted_product pos.sku⟩ : Incident)
    | none => none))

/-- Product weight dictionary built from the catalog rows with truthy
SKU and weight; prepending models dict overwrite (a later row shadows an
earlier one on lookup). -/
def buildWeights (products_list : List Product) : List (String × ℚ) :=
  products_list.foldl (fun acc p =>
    match p.sku, p.weight with
    | some s, some w => if s == "" then acc else (s, w) :: acc
    | _, _ => acc) []

/-- Weight discrepancy detector of event_detector.py: a POS transaction
whose SKU is in the catalog and whose truthy scanned weight differs from
the expected weight by strictly more than expected times
tolerance_percent/100 yields one incident. -/
def detect_weight_discrepancies (pos_transactions : List Ev)
    (products_list : List Product) (tolerance_percent : ℚ) : List Incident :=
  let product_weights := buildWeights products_list
  renumber 0 (pos_transactions.filterMap (fun pos =>
    match pos.sku with
    | none => none
    | some s =>
      match lookupA product_weights s, pos.weight_g with
      | some expected_weight, some actual_weight =>
        if actual_weight = 0 then none
        else
          let tolerance := expected_weight * (tolerance_percent / 100)
          if decide (|actual_weight - expected_weight| > tolerance) then
            some (⟨pos.ts, "", .weightDisc pos.station_id pos.customer_id s
              (truncQ expected_weight) (truncQ actual_weight)⟩ : Incident)
          else none
      | _, _ => none))

/-- Long queue detector of event_detector.py: customer_count (default 0)
strictly above the threshold. -/
def detect_long_queues (queue_monitoring : List Ev) (threshold : Int) : List Incident :=
  renumber 0 (queue_monitoring.filterMap (fun q =>
    let c := q.customer_count.getD 0
    if decide (c > threshold) then
      some (⟨q.ts, "", .longQueue q.station_id c⟩ : Incident)
    else none))

/-- Long wait detector of event_detector.py: average_dwell_time
(default 0) strictly above the threshold. -/
def detect_long_wait_times (queue_monitoring : List Ev) (threshold_seconds : ℚ) : List Incident :=
  renumber 0 (queue_monitoring.filterMap (fun q =>
    let d := q.average_dwell_time.getD 0
    if decide (d > threshold_seconds) then
      some (⟨q.ts, "", .longWait q.station_id (truncQ d)⟩ : Incident)
    else none))

/-- Inner scan of the system crash detector: walk a station's sorted
event list and emit one incident per consecutive pair whose gap is at
least the threshold, with the later timestamp and the gap as duration. -/
def crashScan (gap_threshold : Int) (station : String) : List Ev → List Incident
  | a :: b :: rest =>
    (if decide (((b.ts : Int) - (a.ts : Int)) ≥ gap_threshold) then
      [(⟨b.ts, "", .systemCrash station ((b.ts : Int) - (a.ts : Int))⟩ : Incident)]
    else []) ++ crashScan gap_threshold station (b :: rest)
  | _ => []

/-- Stations of a combined event list, truthy ids only, in first
occurrence order (defaultdict grouping order). -/
def stationsOf (l : List Ev) : List String :=
  dedupFirst ((l.filter (fun e => e.station_id != "")).map (fun e => e.station_id))

/-- System crash detector of event_detector.py: group the combined
stream by truthy station id, sort each group chronologically, and scan
consecutive pairs for gaps of at least the threshold. -/
def detect_system_crashes (all_events : List Ev) (gap_threshold_seconds : Int) : List Incident :=
  renumber 0 (((stationsOf all_events).map (fun s =>
    crashScan gap_threshold_seconds s
      (sortTs Ev.ts (all_events.filter (fun e => e.station_id == s))))).flatten)

/-- Inventory discrepancy detector of event_detector.py (batch): from
the first snapshot, decrement a copy of its quantity map once per later
POS transaction whose SKU is a key, then emit one incident per SKU whose
positive snapshot quantity differs from the decremented expectation by a
relative amount strictly above threshold_percent and an absolute amount
strictly above 5. -/
def detect_inventory_discrepancies (inventory_snapshots : List Snap)
    (pos_transactions : List Ev) (threshold_percent : ℚ) : List Incident :=
  match inventory_snapshots with
  | [] => []
  | initial :: _ =>
    let inventory_data := initial.data
    let expected := pos_transactions.foldl (fun acc p =>
      if decide (p.ts > initial.ts) then
        match p.sku with
        | some s => if (lookupA acc s).isSome then decA acc s else acc
        | none => acc
      else acc) inventory_data
    renumber 0 (expected.filterMap (fun kv =>
      let actual_qty := getDA inventory_data kv.1 0
      if decide (actual_qty > 0) then
        if decide ((((kv.2 - actual_qty).natAbs : ℚ) / (actual_qty : ℚ) * 100 > threshold_percent)
            ∧ (kv.2 - actual_qty).natAbs > 5) then
          some (⟨initial.ts, "", .invDisc kv.1 (getDA inventory_data kv.1 0) kv.2⟩ : Incident)
        else none
      else none))

/-- Success operation detector of event_detector.py: a POS transaction
with some RFID read at the same station within the window whose sku
field equals the transaction's sku field (Python ==, so two absent skus
compare equal) yields one incident. -/
def detect_success_operations (pos_transactions rfid_readings : List Ev)
    (time_window_seconds : Nat) : List Incident :=
  renumber 0 ((pos_transactions.filter (fun pos =>
    (rfid_readings.filter (fun r => r.station_id == pos.station_id)).any
      (fun r => inWindow r.ts pos.ts time_window_seconds && r.sku == pos.sku))).map
    (fun pos => (⟨pos.ts, "", .successOp pos.station_id pos.customer_id pos.sku⟩ : Incident)))

/-- Loaded input of the batch pipeline (customer_data is read but never
used by any detector and is omitted). -/
structure SensorData where
  pos_transactions : List Ev
  rfid_readings : List Ev
  queue_monitoring : List Ev
  product_recognition : List Ev
  inventory_snapshots : List Snap
  products_list : List Product
deriving DecidableEq

/-- Concatenation of the eight detector outputs in the application order
of main.py: scanner avoidance, barcode switching, weight discrepancy,
long queue, long wait, system crash, inventory discrepancy, success
operation, each with its default threshold. -/
def concatDetected (d : SensorData) : List Incident :=
  detect_scanner_avoidance d.pos_transactions d.rfid_readings 10 ++
  detect_barcode_switching d.pos_transactions d.product_recognition 5 ++
  detect_weight_discrepancies d.pos_transactions d.products_list 20 ++
  detect_long_queues d.queue_monitoring 5 ++
  detect_long_wait_times d.queue_monitoring 300 ++
  detect_system_crashes (d.pos_transactions ++ d.rfid_readings ++
    d.queue_monitoring ++ d.product_recognition) 120 ++
  detect_inventory_discrepancies d.inventory_snapshots d.pos_transactions 10 ++
  detect_success_operations d.pos_transactions d.rfid_readings 10

/-- Batch pipeline of main.py: run all detectors, stable-sort the
combined incidents by timestamp, and reassign event ids sequentially. -/
def process_events (d : SensorData) : List Incident :=
  renumber 0 (sortTs Incident.ts (concatDetected d))

namespace Loader

/-- Raw record of an event stream as read from JSONL, before
load_all_data sorts the stream: the timestamp key may be missing. -/
structure RawEv where
  station_id : String
  ts : Option Nat
  sku : Option String
  customer_id : Option String
  weight_g : Option ℚ
  location : Option String
  customer_count : Option Int
  average_dwell_time : Option ℚ
  predicted_product : Option String
  accuracy : Option ℚ
deriving DecidableEq

/-- Raw record with only station and timestamp field set. -/
def mkRaw (st : String) (t : Option Nat) : RawEv :=
  ⟨st, t, none, none, none, none, none, none, none, none⟩

/-- Shape a raw record into a detector event once its timestamp is known
to be present. -/
def toEv (r : RawEv) : Ev :=
  ⟨r.station_id, r.ts.getD 0, r.sku, r.customer_id, r.weight_g, r.location,
    r.customer_count, r.average_dwell_time, r.predicted_product, r.accuracy⟩

/-- Raw input of load_all_data: the four event streams, snapshots and
catalog (the latter two are passed through unsorted and unvalidated). -/
structure RawData where
  pos_transactions : List RawEv
  rfid_readings : List RawEv
  queue_monitoring : List RawEv
  product_recognition : List RawEv
  inventory_snapshots : List Snap
  products_list : List Product
deriving DecidableEq

/-- Sorting pass of load_all_data over one event stream: computing the
sort key parses each record's timestamp, so a record without one raises
KeyError and the whole load fails; otherwise the stream is stably sorted
by timestamp.  There is no skip-and-log path. -/
def sortStream (l : List RawEv) : Except String (List Ev) :=
  if l.all (fun r => r.ts.isSome) then
    Except.ok (sortTs Ev.ts (l.map toEv))
  else Except.error "KeyError: timestamp"

/-- load_all_data of data_loader.py: sort the four event streams in
order, propagating the first failure. -/
def load_all_data (raw : RawData) : Except String SensorData :=
  match sortStream raw.pos_transactions with
  | .error e => .error e
  | .ok pos =>
    match sortStream raw.rfid_readings with
    | .error e => .error e
    | .ok rfid =>
      match sortStream raw.queue_monitoring with
      | .error e => .error e
      | .ok queue =>
        match sortStream raw.product_recognition with
        | .error e => .error e
        | .ok recog =>
          .ok ⟨pos, rfid, queue, recog, raw.inventory_snapshots, raw.products_list⟩

/-- Full batch run: load (which may abort on a malformed record) then
detect and aggregate. -/
def loadAndProcess (raw : RawData) : Except String (List Incident) :=
  match load_all_data raw with
  | .error e => .error e
  | .ok d => .ok (process_events d)

end Loader

namespace T01

/-- Inventory ledger of Team01_sentinel/src/main.py: the running
per-SKU quantity belief, a Python dict modelled as an insertion-ordered
association list. -/
abbrev Ledger := List (String × Int)

/-- POS branch of detect_inventory_discrepancy: a truthy sku that is a
ledger key is decremented by one, anything else is a no-op. -/
def applyTransaction (l : Ledger) (sku : Option String) : Ledger :=
  match sku with
  | some s => if s == "" then l else if (lookupA l s).isSome then decA l s else l
  | none => l

/-- Snapshot branch of detect_inventory_discrepancy: walk the snapshot
entries in order; at the first SKU tracked by the ledger whose tracked
value differs from the actual count by strictly more than 5, resync that
single entry and return the one incident; otherwise return nothing and
leave the ledger unchanged. -/
def reconcile (ts0 : Nat) (l : Ledger) : List (String × Int) → Option Incident × Ledger
  | [] => (none, l)
  | (s, actual) :: rest =>
    match lookupA l s with
    | some expected =>
      if (expected - actual).natAbs > 5 then
        (some ⟨ts0, "E007", .invDisc s expected actual⟩, setA l s actual)
      else reconcile ts0 l rest
    | none => reconcile ts0 l rest

/-- One streamed record as seen by the ledger: either a POS transaction
carrying an optional sku, or an inventory snapshot. -/
inductive LOp where
  | posOp (sku : Option String)
  | snapOp (ts0 : Nat) (entries : List (String × Int))
deriving DecidableEq

/-- Ledger effect of one streamed record. -/
def applyOp (l : Ledger) : LOp → Ledger
  | .posOp sku => applyTransaction l sku
  | .snapOp ts0 entries => (reconcile ts0 l entries).2

/-- Ledger state after a sequence of streamed records. -/
def runOps (l : Ledger) : List LOp → Ledger
  | [] => l
  | op :: rest => runOps (applyOp l op) rest

end T01

/-- Modelled from the spec: the system crash rule as §4.3 and claim C7
word it, emitting one incident for every pair of consecutive events of a
station's sorted stream whose gap is at least the threshold, with the
gap as duration.  To be compared with crashScan, the scan of the
source. -/
def specCrashPairs (gap_threshold : Int) (station : String) (l : List Ev) : List Incident :=
  ((l.zip l.tail).filter
    (fun ab => decide (((ab.2.ts : Int) - (ab.1.ts : Int)) ≥ gap_threshold))).map
    (fun ab => (⟨ab.2.ts, "", .systemCrash station ((ab.2.ts : Int) - (ab.1.ts : Int))⟩ : Incident))

/-- Modelled from the spec: the rule-declaration order of the table in
section 4.3, top to bottom, as claim C3 words it.  To be compared with
the application order of main.py. -/
def specTableRank : EData → Nat
  | .scanAvoid _ _ _ => 0
  | .barcodeSwitch _ _ _ _ => 1
  | .weightDisc _ _ _ _ _ => 2
  | .longQueue _ _ => 3
  | .longWait _ _ => 4
  | .invDisc _ _ _ => 5
  | .systemCrash _ _ => 6
  | .successOp _ _ _ => 7

/-- Single-queue-event batch input: one queue sample with six customers
at station SCC1, emitting exactly one Long Queue incident. -/
def c2Data : SensorData :=
  ⟨[], [], [⟨"SCC1", 5, none, none, none, none, some 6, none, none, none⟩], [], [], []⟩

/-- POS transaction at station SCC1 with a given sku, customer and
time. -/
def c1Pos (sku cust : Option String) (tp : Nat) : Ev :=
  ⟨"SCC1", tp, sku, cust, none, none, none, none, none, none⟩

/-- RFID read of SKU 1234 in the scan area of station SCC1 at a given
time. -/
def c1Rfid (tr : Nat) : Ev :=
  ⟨"SCC1", tr, some "1234", none, none, some "IN_SCAN_AREA", none, none, none, none⟩

/-- POS transaction for SKU A at station S2 at a given time. -/
def c3PosAt (t : Nat) : Ev :=
  ⟨"S2", t, some "A", some "C1", none, none, none, none, none, none⟩

/-- Queue samples at station S1 at times 0 and 1000 with one customer
each (no queue or wait incident), leaving a 1000-second silence that
the crash rule reports at time 1000. -/
def c3Queue : List Ev :=
  [⟨"S1", 0, none, none, none, none, some 1, none, none, none⟩,
   ⟨"S1", 1000, none, none, none, none, some 1, none, none, none⟩]

/-- Six POS transactions for SKU A just after the snapshot time 1000,
driving the expected inventory of A from 50 down to 44. -/
def c3Pos : List Ev :=
  [c3PosAt 1001, c3PosAt 1002, c3PosAt 1003, c3PosAt 1004, c3PosAt 1005, c3PosAt 1006]

/-- Batch input whose run emits a System Crash incident and an
Inventory Discrepancy incident with the same timestamp 1000. -/
def c3Data : SensorData :=
  ⟨c3Pos, [], c3Queue, [], [⟨1000, [("A", 50)]⟩], []⟩

/-- Catalog with a single product P of a given expected weight. -/
def c6Prod (e : ℚ) : Product := ⟨some "P", some e⟩

/-- POS transaction at station S1 scanning product P at a given
weight. -/
def c6Pos (w : ℚ) : Ev :=
  ⟨"S1", 0, some "P", none, some w, none, none, none, none, none⟩

/-- Scenario D stream: four closely spaced events at SCC1 and two
events 150 seconds apart at SCC2. -/
def c7Events : List Ev :=
  [mkEv "SCC2" 0, mkEv "SCC1" 0, mkEv "SCC1" 50, mkEv "SCC1" 100,
   mkEv "SCC1" 150, mkEv "SCC2" 150]

/-- Raw batch input whose only record lacks a timestamp. -/
def c9Raw : Loader.RawData :=
  ⟨[Loader.mkRaw "SCC1" none], [], [], [], [], []⟩

/-- Ledger used to exercise the snapshot walk: A is within tolerance,
B and C both diverge from the snapshot below by more than 5. -/
def led10 : T01.Ledger := [("A", 10), ("B", 100), ("C", 50)]

theorem renumber_length (i : Nat) (l : List Incident) :
    (renumber i l).length = l.length := by
  induction l generalizing i with
  | nil => rfl
  | cons a t ih => simp [renumber, ih]

theorem renumber_getElem? (i j : Nat) (l : List Incident) :
    (renumber i l)[j]? =
      (l[j]?).map (fun inc => (⟨inc.ts, eid (i + j), inc.event_data⟩ : Incident)) := by
  induction l generalizing i j with
  | nil => simp [renumber]
  | cons a t ih =>
    cases j with
    | zero => simp [renumber]
    | succ k =>
      rw [renumber]
      simp only [List.getElem?_cons_succ]
      have h : i + (k + 1) = (i + 1) + k := by omega
      rw [h]
      exact ih (i + 1) k

theorem renumber_map_ts (i : Nat) (l : List Incident) :
    (renumber i l).map Incident.ts = l.map Incident.ts := by
  induction l generalizing i with
  | nil => rfl
  | cons a t ih => simp [renumber, ih]

theorem renumber_filter_strip (t0 i : Nat) (l : List Incident) :
    ((renumber i l).filter (fun e => e.ts == t0)).map (fun e => (e.ts, e.event_data)) =
      (l.filter (fun e => e.ts == t0)).map (fun e => (e.ts, e.event_data)) := by
  induction l generalizing i with
  | nil => rfl
  | cons a tl ih =>
    by_cases h : a.ts == t0 <;> simp [renumber, List.filter_cons, h, ih]

theorem mem_insTs {α : Type} (key : α → Nat) (x a : α) (l : List α) :
    a ∈ insTs key x l ↔ a = x ∨ a ∈ l := by
  induction l with
  | nil => simp [insTs]
  | cons y ys ih =>
    by_cases h : key y < key x
    · simp only [insTs, if_pos h, List.mem_cons, ih]
      tauto
    · simp only [insTs, if_neg h, List.mem_cons]

theorem pairwise_insTs {α : Type} (key : α → Nat) (x : α) (l : List α)
    (h : l.Pairwise (fun a b => key a ≤ key b)) :
    (insTs key x l).Pairwise (fun a b => key a ≤ key b) := by
  induction l with
  | nil => simp [insTs]
  | cons y ys ih =>
    rcases List.pairwise_cons.mp h with ⟨hy, hys⟩
    by_cases hk : key y < key x
    · rw [insTs, if_pos hk]
      refine List.pairwise_cons.mpr ⟨?_, ih hys⟩
      intro z hz
      rcases (mem_insTs key x z ys).mp hz with rfl | hzys
      · exact Nat.le_of_lt hk
      · exact hy z hzys
    · rw [insTs, if_neg hk]
      refine List.pairwise_cons.mpr ⟨?_, h⟩
      intro z hz
      rcases List.mem_cons.mp hz with rfl | hzys
      · exact Nat.le_of_not_lt hk
      · exact Nat.le_trans (Nat.le_of_not_lt hk) (hy z hzys)

theorem pairwise_sortTs {α : Type} (key : α → Nat) (l : List α) :
    (sortTs key l).Pairwise (fun a b => key a ≤ key b) := by
  induction l with
  | nil => simp [sortTs]
  | cons x xs ih => exact pairwise_insTs key x _ ih

theorem filter_insTs {α : Type} (key : α → Nat) (t : Nat) (x : α) (l : List α) :
    (insTs key x l).filter (fun a => key a == t) =
      if key x = t then x :: l.filter (fun a => key a == t)
      else l.filter (fun a => key a == t) := by
  induction l with
  | nil => by_cases h : key x = t <;> simp [insTs, h]
  | cons y ys ih =>
    by_cases hk : key y < key x
    · simp only [insTs]
      rw [if_pos hk]
      by_cases hy : key y = t
      · have hx : ¬ key x = t := by omega
        simp [List.filter_cons, hy, hx, ih]
      · by_cases hx : key x = t <;> simp [List.filter_cons, hy, hx, ih]
    · simp only [insTs]
      rw [if_neg hk]
      by_cases hx : key x = t <;> simp [List.filter_cons, hx]

theorem filter_sortTs {α : Type} (key : α → Nat) (t : Nat) (l : List α) :
    (sortTs key l).filter (fun a => key a == t) = l.filter (fun a => key a == t) := by
  induction l with
  | nil => rfl
  | cons x xs ih =>
    by_cases hx : key x = t <;> simp [sortTs, filter_insTs, hx, List.filter_cons, ih]

theorem specCrashPairs_cons_cons (g : Int) (s : String) (a b : Ev) (rest : List Ev) :
    specCrashPairs g s (a :: b :: rest) =
      (if decide (((b.ts : Int) - (a.ts : Int)) ≥ g) then
        [(⟨b.ts, "", .systemCrash s ((b.ts : Int) - (a.ts : Int))⟩ : Incident)]
      else []) ++ specCrashPairs g s (b :: rest) := by
  by_cases h : ((b.ts : Int) - (a.ts : Int)) ≥ g <;>
    simp [specCrashPairs, List.filter_cons, h]

theorem crashScan_eq_specCrashPairs (g : Int) (s : String) (l : List Ev) :
    crashScan g s l = specCrashPairs g s l := by
  induction l with
  | nil => rfl
  | cons a tl ih =>
    cases tl with
    | nil => rfl
    | cons b rest =>
      rw [crashScan, specCrashPairs_cons_cons, ih]

theorem lookupA_setA_self {β : Type} (l : List (String × β)) (s : String) (v e : β)
    (h : lookupA l s = some e) : lookupA (setA l s v) s = some v := by
  induction l with
  | nil => simp [lookupA] at h
  | cons p rest ih =>
    by_cases hk : p.1 = s
    · simp only [setA]
      rw [if_pos hk]
      simp [lookupA]
    · have h' : lookupA rest s = some e := by
        simpa [lookupA, hk] using h
      simp only [setA]
      rw [if_neg hk]
      simp [lookupA, hk, ih h']

theorem lookupA_setA_ne {β : Type} (l : List (String × β)) (s s' : String) (v : β)
    (h : s' ≠ s) : lookupA (setA l s v) s' = lookupA l s' := by
  induction l with
  | nil => rfl
  | cons p rest ih =>
    by_cases hk : p.1 = s
    · have h1 : ¬ (s = s') := fun hx => h hx.symm
      have h2 : ¬ (p.1 = s') := by rw [hk]; exact h1
      simp only [setA]
      rw [if_pos hk]
      simp [lookupA, h1, h2, ih]
    · simp only [setA]
      rw [if_neg hk]
      by_cases hp : p.1 = s' <;> simp [lookupA, hp, ih]

theorem eid_zero : eid 0 = "E000" := by decide

/-- C7: for every combined stream and threshold, the system crash
detector emits exactly the per-station incidents described by the
claim: one incident per pair of consecutive events of a station's
chronologically sorted stream whose timestamp gap is at least the
threshold (inclusive), with duration equal to the gap; and on the
Scenario D stream (a 150-second gap at station SCC2, threshold 120) it
emits exactly one System Crash incident with duration_seconds 150. -/
theorem c7_system_crash_matches_spec :
    (∀ (all_events : List Ev) (thr : Int),
      detect_system_crashes all_events thr =
        renumber 0 (((stationsOf all_events).map (fun s =>
          specCrashPairs thr s
            (sortTs Ev.ts (all_events.filter (fun e => e.station_id == s))))).flatten)) ∧
    detect_system_crashes c7Events 120 =
      [⟨150, "E000", .systemCrash "SCC2" 150⟩] := by
  constructor
  · intro all_events thr
    simp only [detect_system_crashes, crashScan_eq_specCrashPairs]
  · decide

/-- C2: the final aggregated incident list of the batch pipeline is
sorted ascending by timestamp, and the incident at every position i
carries event_id E followed by i zero-padded to at least three digits,
so event ids are dense, zero-based and strictly increasing with list
position. -/
theorem c2_sorted_dense_event_ids (d : SensorData) (i : Nat)
    (h : i < (process_events d).length) :
    (process_events d).Pairwise (fun a b => a.ts ≤ b.ts) ∧
      ((process_events d)[i]?).map Incident.event_id = some (eid i) := by
  constructor
  · have hs := pairwise_sortTs Incident.ts (concatDetected d)
    have hmap : ((renumber 0 (sortTs Incident.ts (concatDetected d))).map Incident.ts).Pairwise
        (fun a b => a ≤ b) := by
      rw [renumber_map_ts]
      exact List.pairwise_map.mpr hs
    rw [process_events]
    exact List.pairwise_map.mp hmap
  · have hlen : i < (sortTs Incident.ts (concatDetected d)).length := by
      rw [process_events, renumber_length] at h
      exact h
    rw [process_events, renumber_getElem? 0 i, List.getElem?_eq_getElem hlen]
    simp

/-- Witness for C2 at a concrete input producing one incident. -/
theorem c2_sorted_dense_event_ids_witness :
    0 < (process_events c2Data).length ∧
      ((process_events c2Data).Pairwise (fun a b => a.ts ≤ b.ts) ∧
        ((process_events c2Data)[0]?).map Incident.event_id = some (eid 0)) :=
  ⟨by decide, c2_sorted_dense_event_ids c2Data 0 (by decide)⟩

/-- C3 amended: for every batch input and every timestamp, the final
incidents with that timestamp are, up to the reassigned event ids,
exactly the concatenated detector outputs with that timestamp, in the
application order of main.py (scanner avoidance, barcode switching,
weight discrepancy, long queue, long wait, system crash, inventory
discrepancy, success operation) and within one rule in emission
order. -/
theorem c3_tie_order_follows_code_order (d : SensorData) (t0 : Nat) :
    ((process_events d).filter (fun e => e.ts == t0)).map (fun e => (e.ts, e.event_data)) =
      ((concatDetected d).filter (fun e => e.ts == t0)).map (fun e => (e.ts, e.event_data)) := by
  rw [process_events, renumber_filter_strip, filter_sortTs]

/-- C4 counterexample: a snapshot entry within tolerance (tracked 93,
actual 90) fires no incident and its tracked quantity is NOT overwritten
with the actual quantity, so reconcile does not always overwrite. -/
theorem c4_tolerant_sku_not_overwritten_cx :
    T01.reconcile 0 [("A", 93)] [("A", 90)] = (none, [("A", 93)]) ∧
      lookupA (T01.reconcile 0 [("A", 93)] [("A", 90)]).2 "A" = some 93 ∧
      (93 : Int) ≠ 90 := by
  decide

/-- C4 amended: Scenario C holds: a snapshot entry diverging by more
than 5 (tracked 100, actual 90) emits one Inventory Discrepancy
incident and that SKU's tracked quantity is overwritten with 90;
quantities within tolerance keep their old tracked values. -/
theorem c4_reconcile_scenario_c :
    T01.reconcile 0 [("5678", 100)] [("5678", 90)] =
      (some ⟨0, "E007", .invDisc "5678" 100 90⟩, [("5678", 90)]) ∧
      lookupA (T01.reconcile 0 [("5678", 100)] [("5678", 90)]).2 "5678" = some 90 := by
  decide

/-- C5 counterexample: starting from a snapshot with the non-negative
quantity 0 for SKU A, one POS transaction for A drives the tracked
quantity to minus one: the ledger is not non-negative by
construction. -/
theorem c5_negative_quantity_cx :
    lookupA (T01.runOps [("A", 0)] [T01.LOp.posOp (some "A")]) "A" = some (-1) ∧
      (-1 : Int) < 0 := by
  decide

/-- C5 amended: decrements on SKUs absent from the ledger (or with no
sku at all) are no-ops; non-negativity is not preserved in general. -/
theorem c5_absent_sku_noop (l : T01.Ledger) (s : String) (h : lookupA l s = none) :
    T01.applyTransaction l (some s) = l ∧ T01.applyTransaction l none = l := by
  refine ⟨?_, rfl⟩
  simp [T01.applyTransaction, h]

/-- Witness for the amended C5 at a concrete ledger. -/
theorem c5_absent_sku_noop_witness :
    lookupA [("B", (5 : Int))] "A" = none ∧
      (T01.applyTransaction [("B", (5 : Int))] (some "A") = [("B", (5 : Int))] ∧
        T01.applyTransaction [("B", (5 : Int))] none = [("B", (5 : Int))]) :=
  ⟨by decide, c5_absent_sku_noop [("B", (5 : Int))] "A" (by decide)⟩

theorem reconcile_tolerant_front (ts0 : Nat) (led : T01.Ledger) (pre rest : List (String × Int))
    (hpre : ∀ p ∈ pre, ∀ e', lookupA led p.1 = some e' → (e' - p.2).natAbs ≤ 5) :
    T01.reconcile ts0 led (pre ++ rest) = T01.reconcile ts0 led rest := by
  induction pre with
  | nil => rfl
  | cons p ps ih =>
    obtain ⟨k, v⟩ := p
    have hp := hpre (k, v) (List.mem_cons_self _ _)
    rw [List.cons_append]
    cases hcase : lookupA led k with
    | none =>
      simp only [T01.reconcile, hcase]
      exact ih (fun x hx => hpre x (List.mem_cons_of_mem _ hx))
    | some e' =>
      have hgt : ¬ ((e' - v).natAbs > 5) := by
        have := hp e' hcase
        omega
      simp only [T01.reconcile, hcase]
      rw [if_neg hgt]
      exact ih (fun x hx => hpre x (List.mem_cons_of_mem _ hx))

/-- C10: processing one snapshot emits at most one incident: the walk
over the snapshot entries stops at the first SKU (in snapshot order)
tracked by the ledger and diverging by more than 5, emits exactly that
incident, resyncs exactly that SKU, and leaves every other SKU's
tracked quantity and all later snapshot entries untouched. -/
theorem c10_first_divergent_only (ts0 : Nat) (led : T01.Ledger)
    (pre post : List (String × Int)) (s : String) (q e : Int)
    (hpre : ∀ p ∈ pre, ∀ e', lookupA led p.1 = some e' → (e' - p.2).natAbs ≤ 5)
    (hs : lookupA led s = some e) (hdiv : (e - q).natAbs > 5) :
    T01.reconcile ts0 led (pre ++ (s, q) :: post) =
      (some ⟨ts0, "E007", .invDisc s e q⟩, setA led s q) ∧
      lookupA (setA led s q) s = some q ∧
      ∀ s', s' ≠ s → lookupA (setA led s q) s' = lookupA led s' := by
  refine ⟨?_, lookupA_setA_self led s q e hs, fun s' h' => lookupA_setA_ne led s s' q h'⟩
  rw [reconcile_tolerant_front ts0 led pre _ hpre]
  simp only [T01.reconcile, hs]
  rw [if_pos hdiv]

theorem c10_pre_fact : ∀ p ∈ [(("A" : String), (12 : Int))], ∀ e',
    lookupA led10 p.1 = some e' → (e' - p.2).natAbs ≤ 5 := by
  intro p hp e' he'
  rcases List.mem_singleton.mp hp with rfl
  have h10 : lookupA led10 "A" = some 10 := by decide
  rw [h10] at he'
  simp only [Option.some.injEq] at he'
  subst he'
  decide

/-- Witness for C10 at a concrete ledger and snapshot: A within
tolerance is skipped, B diverges and is resynced, C (also divergent) is
never reached. -/
theorem c10_first_divergent_only_witness :
    ((∀ p ∈ [(("A" : String), (12 : Int))], ∀ e',
        lookupA led10 p.1 = some e' → (e' - p.2).natAbs ≤ 5) ∧
      lookupA led10 "B" = some 100 ∧ ((100 : Int) - 50).natAbs > 5) ∧
      (T01.reconcile 7 led10 ([("A", 12)] ++ ("B", 50) :: [("C", 100)]) =
        (some ⟨7, "E007", .invDisc "B" 100 50⟩, setA led10 "B" 50) ∧
        lookupA (setA led10 "B" 50) "B" = some 50 ∧
        ∀ s', s' ≠ "B" → lookupA (setA led10 "B" 50) s' = lookupA led10 s') :=
  ⟨⟨c10_pre_fact, by decide, by decide⟩,
    c10_first_divergent_only 7 led10 [("A", 12)] [("C", 100)] "B" 50 100
      c10_pre_fact (by decide) (by decide)⟩

/-- C1 counterexample: an input containing a POS transaction for SKU
1234 at station SCC1 and no RFID read at all (so in particular none for
1234 within any window) produces no scanner avoidance incident at all,
not exactly one naming product_sku 1234. -/
theorem c1_pos_without_rfid_cx :
    detect_scanner_avoidance [c1Pos (some "1234") none 0] [] 5 = [] := by
  decide

/-- C1 amended: the detector fires in the opposite direction: an RFID
read of SKU 1234 in the scan area of SCC1, with one POS transaction at
SCC1 within the window whose scanned SKU differs from 1234, yields
exactly one Scanner Avoidance incident with station_id SCC1 and
product_sku 1234. -/
theorem c1_unmatched_rfid_sku (tp tr w : Nat) (sku cust : Option String)
    (hne : sku ≠ some "1234") (hw : (((tr : Nat) : Int) - ((tp : Nat) : Int)).natAbs ≤ w) :
    detect_scanner_avoidance [c1Pos sku cust tp] [c1Rfid tr] w =
      [⟨tp, "E000", .scanAvoid "SCC1" cust (some "1234")⟩] := by
  have hne' : (some "1234" : Option String) ≠ sku := fun hx => hne hx.symm
  simp [detect_scanner_avoidance, c1Pos, c1Rfid, inWindow, dedupFirst, renumber, hw, hne',
    eid_zero, mkEv]

/-- Witness for the amended C1 at concrete timestamps and SKUs. -/
theorem c1_unmatched_rfid_sku_witness :
    ((some "9999" : Option String) ≠ some "1234" ∧
      ((((103 : Nat) : Int) - ((100 : Nat) : Int)).natAbs ≤ 5)) ∧
      detect_scanner_avoidance [c1Pos (some "9999") (some "C001") 100] [c1Rfid 103] 5 =
        [⟨100, "E000", .scanAvoid "SCC1" (some "C001") (some "1234")⟩] :=
  ⟨⟨by decide, by decide⟩,
    c1_unmatched_rfid_sku 100 103 5 (some "9999") (some "C001") (by decide) (by decide)⟩

/-- C8: a POS transaction and an RFID read that both lack the sku field
do correlate in the code (Python None equals None), so the success
operation detector emits an incident whose product_sku is absent,
against the required no-correlation reading; the scanner avoidance
detector emits nothing on the same pair. -/
theorem c8_absent_sku_correlates_bug :
    detect_success_operations [mkEv "SCC1" 0] [mkEv "SCC1" 3] 10 =
      [⟨0, "E000", .successOp "SCC1" none none⟩] ∧
      detect_scanner_avoidance [mkEv "SCC1" 0] [mkEv "SCC1" 3] 10 = [] := by
  decide

/-- C9 counterexample: a batch input whose only record lacks a
timestamp makes the whole run abort with an error instead of skipping
the record and producing an (empty) incident log. -/
theorem c9_missing_timestamp_aborts_cx :
    Loader.loadAndProcess c9Raw = Except.error "KeyError: timestamp" := by
  rfl

theorem sortStream_error_of_missing (l : List Loader.RawEv)
    (h : ∃ r ∈ l, r.ts = none) :
    Loader.sortStream l = Except.error "KeyError: timestamp" := by
  obtain ⟨r, hr, hnone⟩ := h
  have hall : ¬ (l.all (fun r => r.ts.isSome) = true) := by
    simp only [List.all_eq_true]
    intro hall
    have := hall r hr
    rw [hnone] at this
    simp at this
  simp only [Loader.sortStream]
  rw [if_neg hall]

/-- C9 amended: a record lacking a timestamp in any of the four event
streams makes the batch load fail while computing the sort key of that
stream, so the whole run aborts with an error; malformed records are
not skipped and logged. -/
theorem c9_malformed_record_aborts (raw : Loader.RawData)
    (h : ∃ r ∈ raw.pos_transactions ++ raw.rfid_readings ++
      raw.queue_monitoring ++ raw.product_recognition, r.ts = none) :
    ∃ msg, Loader.loadAndProcess raw = Except.error msg := by
  obtain ⟨r, hr, hnone⟩ := h
  rw [List.mem_append, List.mem_append, List.mem_append] at hr
  have main : ∃ msg, Loader.load_all_data raw = Except.error msg := by
    rcases hr with ((h1 | h2) | h3) | h4
    · exact ⟨"KeyError: timestamp", by
        simp only [Loader.load_all_data, sortStream_error_of_missing _ ⟨r, h1, hnone⟩]⟩
    · cases hp : Loader.sortStream raw.pos_transactions with
      | error e => exact ⟨e, by simp only [Loader.load_all_data, hp]⟩
      | ok v =>
        exact ⟨"KeyError: timestamp", by
          simp only [Loader.load_all_data, hp,
            sortStream_error_of_missing _ ⟨r, h2, hnone⟩]⟩
    · cases hp : Loader.sortStream raw.pos_transactions with
      | error e => exact ⟨e, by simp only [Loader.load_all_data, hp]⟩
      | ok v =>
        cases hq : Loader.sortStream raw.rfid_readings with
        | error e => exact ⟨e, by simp only [Loader.load_all_data, hp, hq]⟩
        | ok v2 =>
          exact ⟨"KeyError: timestamp", by
            simp only [Loader.load_all_data, hp, hq,
              sortStream_error_of_missing _ ⟨r, h3, hnone⟩]⟩
    · cases hp : Loader.sortStream raw.pos_transactions with
      | error e => exact ⟨e, by simp only [Loader.load_all_data, hp]⟩
      | ok v =>
        cases hq : Loader.sortStream raw.rfid_readings with
        | error e => exact ⟨e, by simp only [Loader.load_all_data, hp, hq]⟩
        | ok v2 =>
          cases hq2 : Loader.sortStream raw.queue_monitoring with
          | error e => exact ⟨e, by simp only [Loader.load_all_data, hp, hq, hq2]⟩
          | ok v3 =>
            exact ⟨"KeyError: timestamp", by
              simp only [Loader.load_all_data, hp, hq, hq2,
                sortStream_error_of_missing _ ⟨r, h4, hnone⟩]⟩
  obtain ⟨msg, hm⟩ := main
  exact ⟨msg, by simp only [Loader.loadAndProcess, hm]⟩

/-- Witness for the amended C9 at the concrete malformed input. -/
theorem c9_malformed_record_aborts_witness :
    (∃ r ∈ c9Raw.pos_transactions ++ c9Raw.rfid_readings ++
        c9Raw.queue_monitoring ++ c9Raw.product_recognition, r.ts = none) ∧
      ∃ msg, Loader.loadAndProcess c9Raw = Except.error msg :=
  ⟨⟨Loader.mkRaw "SCC1" none, by decide, rfl⟩,
    c9_malformed_record_aborts c9Raw ⟨Loader.mkRaw "SCC1" none, by decide, rfl⟩⟩

/-- C3 counterexample: on c3Data the pipeline emits a System Crash
incident and an Inventory Discrepancy incident with the same timestamp
1000, and the System Crash comes first — the opposite of the section
4.3 table order asserted by the claim, under which Inventory
Discrepancy (rank 5) precedes System Crash (rank 6). -/
theorem c3_table_order_cx :
    process_events c3Data =
      [⟨1000, "E000", .systemCrash "S1" 1000⟩, ⟨1000, "E001", .invDisc "A" 50 44⟩] ∧
      specTableRank (EData.invDisc "A" 50 44) < specTableRank (EData.systemCrash "S1" 1000) := by
  refine ⟨?_, by decide⟩
  have hsa : detect_scanner_avoidance c3Data.pos_transactions c3Data.rfid_readings 10 = [] := by
    decide
  have hbs : detect_barcode_switching c3Data.pos_transactions c3Data.product_recognition 5 =
      [] := by decide
  have hwd : detect_weight_discrepancies c3Data.pos_transactions c3Data.products_list 20 =
      [] := by decide
  have hlq : detect_long_queues c3Data.queue_monitoring 5 = [] := by decide
  have hlw : detect_long_wait_times c3Data.queue_monitoring 300 = [] := by decide
  have hsc : detect_system_crashes (c3Data.pos_transactions ++ c3Data.rfid_readings ++
      c3Data.queue_monitoring ++ c3Data.product_recognition) 120 =
      [⟨1000, "E000", .systemCrash "S1" 1000⟩] := by decide
  have hso : detect_success_operations c3Data.pos_transactions c3Data.rfid_readings 10 =
      [] := by decide
  have hid : detect_inventory_discrepancies c3Data.inventory_snapshots c3Data.pos_transactions
      10 = [⟨1000, "E000", .invDisc "A" 50 44⟩] := by
    norm_num [detect_inventory_discrepancies, c3Data, c3Pos, c3PosAt, decA, lookupA, getDA,
      renumber, eid_zero, List.foldl, List.filterMap]
  rw [process_events, concatDetected, hsa, hbs, hwd, hlq, hlw, hsc, hid, hso]
  decide

/-- C6 counterexample: for catalog weight 5/4 gram the lower boundary
expected*(1-tolerance) equals 1 gram, and the scanned weight one unit
below that boundary is 0, which the truthiness check of the detector
skips — so no Weight Discrepancy incident fires although the claim
demands one. -/
theorem c6_zero_weight_cx :
    ((5 / 4 : ℚ) * (1 - 20 / 100) - 1 = 0) ∧
      detect_weight_discrepancies [c6Pos 0] [c6Prod (5 / 4)] 20 = [] := by
  constructor
  · norm_num
  · norm_num [detect_weight_discrepancies, buildWeights, lookupA, c6Pos, c6Prod, renumber,
      List.filterMap]

theorem c6_eval (e w : ℚ) (hw : w ≠ 0) :
    detect_weight_discrepancies [c6Pos w] [c6Prod e] 20 =
      if |w - e| > e * (20 / 100) then
        [⟨0, "E000", .weightDisc "S1" none "P" (truncQ e) (truncQ w)⟩]
      else [] := by
  simp only [detect_weight_discrepancies, buildWeights, c6Pos, c6Prod, List.foldl,
    List.filterMap]
  by_cases hgt : |w - e| > e * (20 / 100)
  · simp [lookupA, hw, hgt, renumber, eid_zero]
  · simp [lookupA, hw, hgt, renumber]

/-- C6 amended: a scanned weight exactly at expected*(1-tolerance) or
expected*(1+tolerance) does not trigger (strict inequality), and a
weight one unit beyond either boundary does trigger — provided that
weight is nonzero: a scanned weight of exactly zero is skipped by the
truthiness check, as the counterexample shows. -/
theorem c6_weight_boundary (e : ℚ) (he : 0 < e) :
    detect_weight_discrepancies [c6Pos (e * (1 - 20 / 100))] [c6Prod e] 20 = [] ∧
    detect_weight_discrepancies [c6Pos (e * (1 + 20 / 100))] [c6Prod e] 20 = [] ∧
    (detect_weight_discrepancies [c6Pos (e * (1 + 20 / 100) + 1)] [c6Prod e] 20).length = 1 ∧
    (e * (1 - 20 / 100) - 1 ≠ 0 →
      (detect_weight_discrepancies [c6Pos (e * (1 - 20 / 100) - 1)] [c6Prod e] 20).length
        = 1) := by
  have htol : (0 : ℚ) < e * (20 / 100) := by nlinarith
  refine ⟨?_, ?_, ?_, fun h4 => ?_⟩
  · have hwp : (0 : ℚ) < e * (1 - 20 / 100) := by nlinarith
    have habs : |e * (1 - 20 / 100) - e| = e * (20 / 100) := by
      have h : e * (1 - 20 / 100) - e = -(e * (20 / 100)) := by ring
      rw [h, abs_neg, abs_of_pos htol]
    rw [c6_eval e _ (ne_of_gt hwp), habs, if_neg (lt_irrefl _)]
  · have hwp : (0 : ℚ) < e * (1 + 20 / 100) := by nlinarith
    have habs : |e * (1 + 20 / 100) - e| = e * (20 / 100) := by
      have h : e * (1 + 20 / 100) - e = e * (20 / 100) := by ring
      rw [h, abs_of_pos htol]
    rw [c6_eval e _ (ne_of_gt hwp), habs, if_neg (lt_irrefl _)]
  · have hwp : (0 : ℚ) < e * (1 + 20 / 100) + 1 := by nlinarith
    have habs : |e * (1 + 20 / 100) + 1 - e| = e * (20 / 100) + 1 := by
      have h : e * (1 + 20 / 100) + 1 - e = e * (20 / 100) + 1 := by ring
      rw [h, abs_of_pos (by linarith)]
    rw [c6_eval e _ (ne_of_gt hwp), habs, if_pos (by linarith)]
    rfl
  · have habs : |e * (1 - 20 / 100) - 1 - e| = e * (20 / 100) + 1 := by
      have h : e * (1 - 20 / 100) - 1 - e = -(e * (20 / 100) + 1) := by ring
      rw [h, abs_neg, abs_of_pos (by linarith)]
    rw [c6_eval e _ h4, habs, if_pos (by linarith)]
    rfl

/-- Witness for the amended C6 at catalog weight 500 grams. -/
theorem c6_weight_boundary_witness :
    (0 : ℚ) < 500 ∧
      (detect_weight_discrepancies [c6Pos ((500 : ℚ) * (1 - 20 / 100))] [c6Prod 500] 20 = [] ∧
       detect_weight_discrepancies [c6Pos ((500 : ℚ) * (1 + 20 / 100))] [c6Prod 500] 20 = [] ∧
       (detect_weight_discrepancies [c6Pos ((500 : ℚ) * (1 + 20 / 100) + 1)]
         [c6Prod 500] 20).length = 1 ∧
       ((500 : ℚ) * (1 - 20 / 100) - 1 ≠ 0 →
         (detect_weight_discrepancies [c6Pos ((500 : ℚ) * (1 - 20 / 100) - 1)]
           [c6Prod 500] 20).length = 1)) :=
  ⟨by decide, c6_weight_boundary 500 (by decide)⟩
